import Mathlib

/-!
Verification of the sc-manifest-form manifest pipeline.

The Python sources (`main.py`, `models.py`, `yaml_handler.py`) are shallowly
embedded below.  Python strings are modelled as Lean `String` (manipulated
through their `List Char` representation); Python `dict`s, which preserve
insertion order and overwrite values in place on duplicate keys, are modelled
as ordered association lists with an insert-or-overwrite operation.  Fallible
Python code that raises is modelled with `Except`.

Python's `str.strip` family strips Unicode whitespace; the inputs handled by
this application are ASCII, and the embedding strips the ASCII whitespace
characters, which is faithful on every input considered here.
-/

namespace SCM

/-- Equality on `Except` is decidable when it is on both components. -/
instance {ε α : Type} [DecidableEq ε] [DecidableEq α] : DecidableEq (Except ε α) := fun a b => by
  cases a <;> cases b
  case error.error e f =>
    exact decidable_of_iff (e = f) ⟨fun h => h ▸ rfl, fun h => by cases h; rfl⟩
  case error.ok e x => exact isFalse (fun h => Except.noConfusion h)
  case ok.error x e => exact isFalse (fun h => Except.noConfusion h)
  case ok.ok x y =>
    exact decidable_of_iff (x = y) ⟨fun h => h ▸ rfl, fun h => by cases h; rfl⟩

/-- ASCII whitespace, the character class stripped by Python's `str.strip()`
(restricted to ASCII, see module comment). -/
def isPyWs (c : Char) : Bool :=
  c = ' ' || c = '\t' || c = '\n' || c = '\r' || c = Char.ofNat 11 || c = Char.ofNat 12

/-- The double-quote character. -/
def dqc : Char := Char.ofNat 34

/-- The single-quote (apostrophe) character. -/
def sqc : Char := Char.ofNat 39

/-- The backtick character. -/
def btk : Char := Char.ofNat 96

/-- The left curly brace character. -/
def lbr : Char := Char.ofNat 123

/-- The right curly brace character. -/
def rbr : Char := Char.ofNat 125

/-- Remove leading characters satisfying `p` (Python `lstrip`). -/
def lstripBy (p : Char → Bool) (l : List Char) : List Char := l.dropWhile p

/-- Remove trailing characters satisfying `p` (Python `rstrip`). -/
def rstripBy (p : Char → Bool) (l : List Char) : List Char :=
  (l.reverse.dropWhile p).reverse

/-- Remove leading and trailing characters satisfying `p` (Python `strip`). -/
def stripBy (p : Char → Bool) (l : List Char) : List Char :=
  rstripBy p (lstripBy p l)

/-- Python `s.strip()` on whitespace. -/
def pyStrip (s : String) : String := ⟨stripBy isPyWs s.data⟩

/-- Python `s.strip(chars)`. -/
def pyStripChars (cs : List Char) (s : String) : String :=
  ⟨stripBy (fun c => cs.contains c) s.data⟩

/-- Python `s.rstrip(chars)`. -/
def pyRstripChars (cs : List Char) (s : String) : String :=
  ⟨rstripBy (fun c => cs.contains c) s.data⟩

/-- Python `s.split(sep)` for a one-character separator: splits at every
occurrence and keeps empty pieces, so the result is always nonempty. -/
def splitOnChar (sep : Char) : List Char → List (List Char)
  | [] => [[]]
  | c :: rest =>
    match splitOnChar sep rest with
    | [] => [[]]
    | h :: t => if c = sep then [] :: h :: t else (c :: h) :: t

/-- Python `line.split(sep, 1)`: `none` when the separator is absent,
otherwise the pieces before and after the first occurrence. -/
def breakAtFirst (sep : Char) : List Char → Option (List Char × List Char)
  | [] => none
  | c :: rest =>
    if c = sep then some ([], rest)
    else
      match breakAtFirst sep rest with
      | none => none
      | some (a, b) => some (c :: a, b)

/-- Python `dict` insertion on an ordered association list: an existing key
keeps its position and gets the new value, a new key is appended. -/
def dictInsertS (d : List (String × String)) (k v : String) : List (String × String) :=
  match d with
  | [] => [(k, v)]
  | (k', v') :: rest =>
    if k' = k then (k', v) :: rest else (k', v') :: dictInsertS rest k v

/- ## The abbreviation parser (`main.py`, `parse_cell_types`) -/

/-- The error kinds raised by `parse_cell_types` (`main.py` lines 30-44);
`perrMessage` below renders the exact Python messages. -/
inductive ErrKind where
  | missingSeparator
  | missingAbbreviation
  | missingDescription
  | invalidCharacters
deriving DecidableEq, Repr

/-- A `ValueError` of `parse_cell_types`: the reported line number and kind. -/
structure PErr where
  line : Nat
  kind : ErrKind
deriving DecidableEq, Repr

/-- The exact message text of the Python `ValueError` for each error. -/
def perrMessage (e : PErr) : String :=
  let tail : String :=
    match e.kind with
    | .missingSeparator => ": Missing colon separator"
    | .missingAbbreviation => ": Abbreviation is missing"
    | .missingDescription => ": Description is missing"
    | .invalidCharacters => ": Abbreviation contains invalid characters"
  "Line " ++ toString e.line ++ tail

/-- The reserved characters rejected inside an abbreviation
(`main.py` line 43). -/
def reservedChars : List Char :=
  [dqc, sqc, lbr, rbr, '[', ']', '|', '>', '&', '*', '?', '!', '%', '@', btk]

/-- The loop body of `parse_cell_types` (`main.py` lines 24-47): lines are
numbered from `n`, blank lines are skipped, each other line is split at its
first colon, both sides are stripped, and the checks run in source order
(missing colon, empty abbreviation, empty description, reserved characters);
the first failure raises and aborts the whole parse. -/
def parseLines (n : Nat) (lines : List (List Char)) (acc : List (String × String)) :
    Except PErr (List (String × String)) :=
  match lines with
  | [] => .ok acc
  | line :: rest =>
    if stripBy isPyWs line = [] then parseLines (n + 1) rest acc
    else
      match breakAtFirst ':' line with
      | none => .error ⟨n, .missingSeparator⟩
      | some (a, d) =>
        if stripBy isPyWs a = [] then .error ⟨n, .missingAbbreviation⟩
        else if stripBy isPyWs d = [] then .error ⟨n, .missingDescription⟩
        else if (stripBy isPyWs a).any (fun c => reservedChars.contains c) then
          .error ⟨n, .invalidCharacters⟩
        else
          parseLines (n + 1) rest
            (dictInsertS acc ⟨stripBy isPyWs a⟩ ⟨stripBy isPyWs d⟩)

/-- `parse_cell_types` (`main.py` lines 16-49).  Note that the input is
`strip()`ped **before** being split into lines, so line numbers are relative
to the stripped text. -/
def parse_cell_types (s : String) : Except PErr (List (String × String)) :=
  if pyStrip s = "" then .ok []
  else parseLines 1 (splitOnChar '\n' (pyStrip s).data) []

/- ## The validator (`main.py`, `validate_mandatory_fields`) -/

/-- The `study` sub-dictionary handed to the validator; `none` models an
absent key, `some ""` an empty value (both falsy in Python). -/
structure StudyDict where
  name : Option String
  title : Option String
  abstract : Option String
deriving DecidableEq, Repr

/-- The candidate dictionary handed to `validate_mandatory_fields`. -/
structure CandidateData where
  project_id : Option String
  study : Option StudyDict
deriving DecidableEq, Repr

/-- Python truthiness of `d.get(key)` for a string-valued key: falsy when the
key is absent or its value is the empty string. -/
def pyTruthy : Option String → Bool
  | none => false
  | some s => !(s = "")

/-- `data.get('study', \x7b\x7d)` (`main.py` line 57). -/
def studyOf (d : CandidateData) : StudyDict :=
  d.study.getD ⟨none, none, none⟩

/-- `validate_mandatory_fields` (`main.py` lines 51-65): appends one message
per failing check, in source order, and always returns (never raises). -/
def validate_mandatory_fields (d : CandidateData) : List String :=
  let errors : List String := []
  let errors := if pyTruthy d.project_id then errors
                else errors ++ ["Project ID is required"]
  let st := studyOf d
  let errors := if pyTruthy st.name then errors
                else errors ++ ["Study name is required"]
  let errors := if pyTruthy st.title then errors
                else errors ++ ["Study title is required"]
  let errors := if pyTruthy st.abstract then errors
                else errors ++ ["Study abstract is required"]
  errors

/- ## The PubMed ID parser (`main.py` line 282) -/

/-- Decimal digit run of a Python integer literal: nonempty digits with
single underscores allowed strictly between digits. -/
def digitsValAux (acc : Nat) : List Char → Option Nat
  | [] => some acc
  | c :: rest =>
    if c.isDigit then digitsValAux (acc * 10 + (c.toNat - 48)) rest
    else if c = '_' then
      match rest with
      | [] => none
      | d :: rest2 =>
        if d.isDigit then digitsValAux (acc * 10 + (d.toNat - 48)) rest2 else none
    else none

/-- Value of a nonempty digit run, `none` on any malformed input. -/
def digitsVal : List Char → Option Nat
  | [] => none
  | c :: rest => if c.isDigit then digitsValAux (c.toNat - 48) rest else none

/-- Python `int(s)` on a string: surrounding whitespace is ignored, an
optional sign precedes the digits (ASCII decimal forms; the app's inputs). -/
def pyParseInt (s : String) : Option Int :=
  match stripBy isPyWs s.data with
  | '+' :: rest => (digitsVal rest).map Int.ofNat
  | '-' :: rest => (digitsVal rest).map (fun n => -(n : Int))
  | l => (digitsVal l).map Int.ofNat

/-- The message shown by `main.py` line 284 when a PubMed token is not an
integer. -/
def pmidErrorMsg : String := "PubMed IDs must be valid integers separated by commas"

/-- The comma-separated tokens of the raw PubMed field. -/
def csvTokens (s : String) : List String :=
  (splitOnChar ',' s.data).map (fun l => ⟨l⟩)

/-- Parse every token in turn; the first failure aborts with no partial
list (the Python list comprehension raises before producing a value). -/
def goTokens : List String → Except String (List Int)
  | [] => .ok []
  | t :: rest =>
    match pyParseInt t with
    | none => .error pmidErrorMsg
    | some n =>
      match goTokens rest with
      | .error m => .error m
      | .ok l => .ok (n :: l)

/-- The PubMed ID parser (`main.py` line 282):
`[int(id.strip()) for id in pmid.split(",")] if pmid.strip() else []`,
with the surrounding `except ValueError` of lines 283-285. -/
def split_csv_ints (s : String) : Except String (List Int) :=
  if pyStrip s = "" then .ok []
  else goTokens (csvTokens s)

/- ## `yaml_handler.py`: string formatting and dictionary cleaning -/

/-- The characters treated as special by `format_string_for_yaml`
(`yaml_handler.py` line 27); unlike `reservedChars` this set contains `:`. -/
def formatSpecialChars : List Char :=
  [dqc, sqc, lbr, rbr, '[', ']', '|', '>', '&', '*', '?', '!', ':', '%', '@', btk]

/-- Python `s.replace(dq, backslash dq)`: every double quote becomes a
backslash followed by a double quote. -/
def replaceQuoteL : List Char → List Char
  | [] => []
  | c :: rest =>
    if c = dqc then '\\' :: dqc :: replaceQuoteL rest else c :: replaceQuoteL rest

/-- `format_string_for_yaml` (`yaml_handler.py` lines 22-29). -/
def format_string_for_yaml (s : String) : String :=
  if s = "" then ""
  else if s.data.contains '\n' || s.data.any (fun c => formatSpecialChars.contains c) then
    ⟨replaceQuoteL s.data⟩
  else s

mutual
/-- A Python value inside a cell-type-abbreviation dictionary: a string, a
nested dictionary, or any other value (represented by an integer), matching
the three branches of `clean_dict_strings`. -/
inductive CVal where
  | cstr (s : String)
  | cint (n : Int)
  | cdict (d : CEntries)
deriving DecidableEq, Repr

/-- An ordered Python dictionary with `CVal` values. -/
inductive CEntries where
  | nil
  | cons (k : String) (v : CVal) (rest : CEntries)
deriving DecidableEq, Repr
end

/-- Python `dict` insertion on `CEntries` (same semantics as `dictInsertS`). -/
def centInsert : CEntries → String → CVal → CEntries
  | .nil, k, v => .cons k v .nil
  | .cons k' v' rest, k, v =>
    if k' = k then .cons k' v rest else .cons k' v' (centInsert rest k v)

/-- The key cleaning of `clean_dict_strings` (`yaml_handler.py` line 36):
`str(k).strip().strip(sq dq)`. -/
def cleanKey (k : String) : String := pyStripChars [sqc, dqc] (pyStrip k)

/-- The string-value cleaning of `clean_dict_strings` (`yaml_handler.py`
line 40): `v.strip().strip(sq dq).rstrip(",")`. -/
def cleanStrVal (v : String) : String :=
  pyRstripChars [','] (pyStripChars [sqc, dqc] (pyStrip v))

mutual
/-- The per-value branch of `clean_dict_strings` (`yaml_handler.py`
lines 38-44): string values are cleaned, dictionary values are cleaned
recursively, any other value is passed through. -/
def cleanVal : CVal → CVal
  | .cstr s => .cstr (cleanStrVal s)
  | .cint n => .cint n
  | .cdict d => .cdict (cleanEntries .nil d)

/-- The loop of `clean_dict_strings` (`yaml_handler.py` lines 33-47):
iterates the entries in order, cleaning each key and value and inserting
into the fresh dictionary `acc`. -/
def cleanEntries : CEntries → CEntries → CEntries
  | acc, .nil => acc
  | acc, .cons k v rest => cleanEntries (centInsert acc (cleanKey k) (cleanVal v)) rest
end

/-- `clean_dict_strings` proper. -/
def clean_dict_strings (d : CEntries) : CEntries := cleanEntries .nil d

/- ## `models.py`: the manifest record -/

/-- `Study` (`models.py` lines 8-19); field order is the declaration order,
which `model_dump` preserves. -/
structure Study where
  name : String
  title : String
  abstract : String
  pmid : List Int
  app_link : String
  year : String
  note : String
  cell_type_abbreviations : CEntries
deriving DecidableEq, Repr

/-- `GeoInfo` (`models.py` lines 21-27). -/
structure GeoInfo where
  platforms : String
  organisms : List String
  geoid : String
  geo_summary : String
  urls : List String
  processed_date : String
deriving DecidableEq, Repr

/-- `Location` (`models.py` lines 29-31). -/
structure Location where
  andata_on_azure : String
  pp_notebooks : String
deriving DecidableEq, Repr

/-- `Results` (`models.py` lines 33-38). -/
structure Results where
  no_of_samples : String
  no_of_cells_after_pp : String
  no_of_genes_after_pp : String
  no_of_clusters : String
  cluster_cell_numbers : List (String × Int)
deriving DecidableEq, Repr

/-- `Processing` (`models.py` lines 5-6). -/
structure Processing where
  description : String
deriving DecidableEq, Repr

/-- `ManifestData` (`models.py` lines 40-46): the top-level record, fields in
declaration order `project_id, study, geo, loc, results, processing`. -/
structure ManifestData where
  project_id : String
  study : Study
  geo : GeoInfo
  loc : Location
  results : Results
  processing : Processing
deriving DecidableEq, Repr

/-- `format_manifest_data` (`yaml_handler.py` lines 49-66): rewrites the
five designated free-text fields with `format_string_for_yaml` and the
abbreviation dictionary with `clean_dict_strings` (the `isinstance(…, dict)`
test is always true, the field being a dictionary by construction).  All the
other fields are returned unchanged. -/
def format_manifest_data (m : ManifestData) : ManifestData :=
  { m with
    study := { m.study with
      title := format_string_for_yaml m.study.title
      abstract := format_string_for_yaml m.study.abstract
      app_link := format_string_for_yaml m.study.app_link
      cell_type_abbreviations := clean_dict_strings m.study.cell_type_abbreviations }
    geo := { m.geo with geo_summary := format_string_for_yaml m.geo.geo_summary }
    processing := { description := format_string_for_yaml m.processing.description } }

/- ## The YAML emitter

`save_manifest_to_yaml` hands the formatted dictionary to `yaml.dump` with
`default_style=None, default_flow_style=False, sort_keys=False, indent=2,
allow_unicode=True, width=1000, explicit_start=True, explicit_end=True`.
The emitter below is modelled from the PyYAML library (which is outside this
repository): block style, two-space indent, indentless block sequences,
explicit start and end marker lines, keys in dictionary order, and PyYAML's
automatic scalar style — plain where allowed, else single-quoted, else
double-quoted.  The plain-style analysis is restricted to the single-line
ASCII strings this development evaluates it on (letters, digits, spaces and
the punctuation below); strings outside that class are quoted, as PyYAML
would quote or escape them. -/

mutual
/-- A Python value handed to `yaml.dump`.  `pqstr` models a value of the
`QuotedString` class of `yaml_handler.py` (lines 4-16), whose registered
representer always emits double-quoted style; the pipeline never constructs
one. -/
inductive PyVal where
  | pstr (s : String)
  | pqstr (s : String)
  | pint (n : Int)
  | plist (l : PyList)
  | pdict (d : PyDict)
deriving DecidableEq, Repr

/-- An ordered Python list of values. -/
inductive PyList where
  | nil
  | cons (v : PyVal) (rest : PyList)
deriving DecidableEq, Repr

/-- An ordered Python dictionary with string keys. -/
inductive PyDict where
  | nil
  | cons (k : String) (v : PyVal) (rest : PyDict)
deriving DecidableEq, Repr
end

/-- ASCII lowercasing of one character (Python/PyYAML compare these words
case-insensitively). -/
def lowerChar (c : Char) : Char :=
  if 'A' ≤ c && c ≤ 'Z' then Char.ofNat (c.toNat + 32) else c

/-- Words that the YAML 1.1 resolver would read as booleans or null, which
PyYAML therefore refuses to emit as plain scalars. -/
def resolverWords : List String :=
  ["true", "false", "yes", "no", "on", "off", "null", "none", "y", "n", "~"]

/-- Characters admitted by the (scoped) plain-style analysis: letters,
digits, space, and punctuation that PyYAML allows inside a plain scalar in
block context.  `:` and `#` are excluded wholesale (a simplification that
only forces quoting, never un-quotes). -/
def plainAllowedChar (c : Char) : Bool :=
  c.isAlpha || c.isDigit ||
    c = ' ' || c = dqc || c = '\\' || c = '-' || c = '_' || c = '.' || c = '/'

/-- Scoped model of PyYAML's plain-scalar analysis: nonempty, starts with a
letter, every character admissible, no trailing space, and not a word the
resolver would retype. -/
def plainOk (l : List Char) : Bool :=
  match l with
  | [] => false
  | c :: _ =>
    c.isAlpha && l.all plainAllowedChar && l.getLast? ≠ some ' ' &&
      !(resolverWords.contains ⟨l.map lowerChar⟩)

/-- Single-quoted style is available for single-line printable ASCII. -/
def singleOk (l : List Char) : Bool :=
  l.all (fun c => 32 ≤ c.toNat && c.toNat ≤ 126)

/-- Escape for single-quoted style: each apostrophe is doubled. -/
def escSingle : List Char → List Char
  | [] => []
  | c :: rest => if c = sqc then sqc :: sqc :: escSingle rest else c :: escSingle rest

/-- Escape for double-quoted style (the cases arising here). -/
def escDouble : List Char → List Char
  | [] => []
  | c :: rest =>
    if c = '\\' then '\\' :: '\\' :: escDouble rest
    else if c = dqc then '\\' :: dqc :: escDouble rest
    else if c = '\n' then '\\' :: 'n' :: escDouble rest
    else c :: escDouble rest

/-- Double-quoted rendering of a string. -/
def renderDQ (s : String) : List Char := dqc :: escDouble s.data ++ [dqc]

/-- PyYAML's automatic scalar style for a plain `str` value: plain where
allowed, else single-quoted, else double-quoted. -/
def scalarOfStr (s : String) : List Char :=
  if plainOk s.data then s.data
  else if singleOk s.data then sqc :: escSingle s.data ++ [sqc]
  else renderDQ s

/-- The inline (single-token) rendering of a scalar list item. The lists in
a manifest only hold strings and integers; containers never occur as items
and render as an empty placeholder. -/
def itemScalar : PyVal → List Char
  | .pstr s => scalarOfStr s
  | .pqstr s => renderDQ s
  | .pint n => (toString n).data
  | .plist _ => []
  | .pdict _ => []

/-- `n` spaces of block indentation. -/
def spacesL (n : Nat) : List Char := List.replicate n ' '

/-- One `key: value` line at the given indent. -/
def keyLine (ind : Nat) (k : String) (v : List Char) : List Char :=
  spacesL ind ++ scalarOfStr k ++ [':', ' '] ++ v ++ ['\n']

mutual
/-- Render one dictionary entry: scalars and empty containers inline, a
nonempty dictionary on following lines indented two further, a nonempty
list on following lines at the same indent (PyYAML's indentless block
sequences). -/
def renderEntry (ind : Nat) (k : String) : PyVal → List Char
  | .pstr s => keyLine ind k (scalarOfStr s)
  | .pqstr s => keyLine ind k (renderDQ s)
  | .pint n => keyLine ind k (toString n).data
  | .pdict .nil => keyLine ind k [lbr, rbr]
  | .pdict (.cons k' v' rest) =>
    spacesL ind ++ scalarOfStr k ++ [':', '\n'] ++ renderDict (ind + 2) (.cons k' v' rest)
  | .plist .nil => keyLine ind k ['[', ']']
  | .plist (.cons v' rest) =>
    spacesL ind ++ scalarOfStr k ++ [':', '\n'] ++ renderList ind (.cons v' rest)

/-- Render a block mapping, one entry per key in dictionary order. -/
def renderDict (ind : Nat) : PyDict → List Char
  | .nil => []
  | .cons k v rest => renderEntry ind k v ++ renderDict ind rest

/-- Render a block sequence of scalar items. -/
def renderList (ind : Nat) : PyList → List Char
  | .nil => []
  | .cons v rest => spacesL ind ++ ['-', ' '] ++ itemScalar v ++ ['\n'] ++ renderList ind rest
end

/-- A list of strings as a Python list value. -/
def plistOfStrs : List String → PyList
  | [] => .nil
  | s :: rest => .cons (.pstr s) (plistOfStrs rest)

/-- A list of integers as a Python list value. -/
def plistOfInts : List Int → PyList
  | [] => .nil
  | n :: rest => .cons (.pint n) (plistOfInts rest)

/-- A string-to-int dictionary as a Python dictionary value. -/
def pdictOfIntDict : List (String × Int) → PyDict
  | [] => .nil
  | (k, n) :: rest => .cons k (.pint n) (pdictOfIntDict rest)

mutual
/-- An abbreviation value as a Python value. -/
def pyOfCVal : CVal → PyVal
  | .cstr s => .pstr s
  | .cint n => .pint n
  | .cdict d => .pdict (pyOfCEntries d)

/-- An abbreviation dictionary as a Python dictionary value. -/
def pyOfCEntries : CEntries → PyDict
  | .nil => .nil
  | .cons k v rest => .cons k (pyOfCVal v) (pyOfCEntries rest)
end

/-- `manifest.model_dump()`: the nested dictionary of a `ManifestData`, keys
in the declaration order of `models.py` (pydantic's `model_dump` preserves
field declaration order). -/
def modelDump (m : ManifestData) : PyDict :=
  let studyD : PyDict :=
    .cons "name" (.pstr m.study.name) <|
    .cons "title" (.pstr m.study.title) <|
    .cons "abstract" (.pstr m.study.abstract) <|
    .cons "pmid" (.plist (plistOfInts m.study.pmid)) <|
    .cons "app_link" (.pstr m.study.app_link) <|
    .cons "year" (.pstr m.study.year) <|
    .cons "note" (.pstr m.study.note) <|
    .cons "cell_type_abbreviations"
      (.pdict (pyOfCEntries m.study.cell_type_abbreviations)) .nil
  let geoD : PyDict :=
    .cons "platforms" (.pstr m.geo.platforms) <|
    .cons "organisms" (.plist (plistOfStrs m.geo.organisms)) <|
    .cons "geoid" (.pstr m.geo.geoid) <|
    .cons "geo_summary" (.pstr m.geo.geo_summary) <|
    .cons "urls" (.plist (plistOfStrs m.geo.urls)) <|
    .cons "processed_date" (.pstr m.geo.processed_date) .nil
  let locD : PyDict :=
    .cons "andata_on_azure" (.pstr m.loc.andata_on_azure) <|
    .cons "pp_notebooks" (.pstr m.loc.pp_notebooks) .nil
  let resultsD : PyDict :=
    .cons "no_of_samples" (.pstr m.results.no_of_samples) <|
    .cons "no_of_cells_after_pp" (.pstr m.results.no_of_cells_after_pp) <|
    .cons "no_of_genes_after_pp" (.pstr m.results.no_of_genes_after_pp) <|
    .cons "no_of_clusters" (.pstr m.results.no_of_clusters) <|
    .cons "cluster_cell_numbers"
      (.pdict (pdictOfIntDict m.results.cluster_cell_numbers)) .nil
  let processingD : PyDict :=
    .cons "description" (.pstr m.processing.description) .nil
  .cons "project_id" (.pstr m.project_id) <|
  .cons "study" (.pdict studyD) <|
  .cons "geo" (.pdict geoD) <|
  .cons "loc" (.pdict locD) <|
  .cons "results" (.pdict resultsD) <|
  .cons "processing" (.pdict processingD) .nil

/-- The keys of a Python dictionary, in order. -/
def pdictKeys : PyDict → List String
  | .nil => []
  | .cons k _ rest => k :: pdictKeys rest

/-- `yaml.dump` with the options of `save_manifest_to_yaml`: an explicit
start marker line, the block rendering of the document, an explicit end
marker line. -/
def yamlDumpL (d : PyDict) : List Char :=
  "---\n".data ++ (renderDict 0 d ++ "...\n".data)

/-- The bytes `save_manifest_to_yaml` (`yaml_handler.py` lines 68-84) writes
for a record: the YAML dump of the formatted data. -/
def save_manifest_chars (m : ManifestData) : List Char :=
  yamlDumpL (modelDump (format_manifest_data m))

/-- The file content written by `save_manifest_to_yaml`, as a string. -/
def save_manifest_output (m : ManifestData) : String :=
  ⟨save_manifest_chars m⟩

/-- The state of the caller's record after `save_manifest_to_yaml` returns:
`format_manifest_data` copies only the top-level dictionary
(`data.copy()` on line 51 is shallow) and then re-assigns fields of the
shared nested `study`, `geo` and `processing` dictionaries, so after one
call the caller's record holds the formatted values. -/
def save_manifest_post (m : ManifestData) : ManifestData :=
  format_manifest_data m

/-- The bytes a second `save_manifest_to_yaml` on the same record object
writes: the first call left the record formatted in place, so the second
call formats the already-formatted values. -/
def second_serialization (m : ManifestData) : String :=
  save_manifest_output (save_manifest_post m)

/-- Modelled from the PyYAML library (outside this repository): `yaml.dump`
followed by `yaml.safe_load` is value-faithful on the block documents
emitted here, so parsing the serialized manifest back into a generic
mapping returns exactly the values of the formatted record that was handed
to `yaml.dump`. -/
def round_trip_values (m : ManifestData) : ManifestData :=
  format_manifest_data m

/- ## The submission pipeline (`main.py`, `main`, lines 259-356)

The UI layer is opaque; the submission handler consumes the raw field
values.  Date-picker values reach the pipeline already formatted with
`strftime` as `YYYY-MM-DD` strings, so they are modelled as strings. -/

/-- The raw form values consumed when the form is submitted. -/
structure FormInput where
  project_id : String
  study_name : String
  study_title : String
  study_abstract : String
  pmid : String
  app_link : String
  year : String
  note : String
  no_of_samples : String
  no_of_cells : String
  no_of_clusters : String
  no_of_genes : String
  cluster_cell_numbers : String
  platforms : String
  organisms : String
  geoid : String
  geo_summary : String
  urls : String
  processed_date : String
  azure_location : String
  pp_notebooks : String
  processing_description : String
  cell_types_str : String
deriving DecidableEq, Repr

/-- The dictionary built for validation (`main.py` lines 266-273). -/
def dataOf (inp : FormInput) : CandidateData :=
  ⟨some inp.project_id,
   some ⟨some inp.study_name, some inp.study_title, some inp.study_abstract⟩⟩

/-- `[x.strip() for x in text.splitlines() if x.strip()]`
(`main.py` lines 294-295). -/
def splitlinesClean (s : String) : List String :=
  ((splitOnChar '\n' s.data).map (fun l => stripBy isPyWs l)).filterMap
    (fun l => if l = [] then none else some ⟨l⟩)

/-- A flat abbreviation mapping as a `CEntries` dictionary. -/
def centOfPairs : List (String × String) → CEntries
  | [] => .nil
  | (k, v) :: rest => .cons k (.cstr v) (centOfPairs rest)

/-- The manifest constructed on lines 300-344 of `main.py`; note that
`cluster_cell_numbers` is always passed the empty dictionary (line 316). -/
def buildManifest (inp : FormInput) (pmids : List Int)
    (ctypes : List (String × String)) : ManifestData :=
  { project_id := inp.project_id
    study :=
      { name := inp.study_name
        title := inp.study_title
        abstract := inp.study_abstract
        pmid := pmids
        app_link := inp.app_link
        year := inp.year
        note := inp.note
        cell_type_abbreviations := centOfPairs ctypes }
    geo :=
      { platforms := inp.platforms
        organisms := splitlinesClean inp.organisms
        geoid := inp.geoid
        geo_summary := inp.geo_summary
        urls := splitlinesClean inp.urls
        processed_date := inp.processed_date }
    loc :=
      { andata_on_azure := inp.azure_location
        pp_notebooks := inp.pp_notebooks }
    results :=
      { no_of_samples := inp.no_of_samples
        no_of_cells_after_pp := inp.no_of_cells
        no_of_genes_after_pp := inp.no_of_genes
        no_of_clusters := inp.no_of_clusters
        cluster_cell_numbers := [] }
    processing := { description := inp.processing_description } }

/-- The outcome of one submission: each `st.stop()` branch of `main.py`
(lines 278, 285, 292) or the successful generation of a manifest file. -/
inductive SubmitOutcome where
  | stoppedValidation (errors : List String)
  | stoppedPmid (message : String)
  | stoppedCellTypes (message : String)
  | generated (content : String)
deriving DecidableEq, Repr

/-- The manifest files written during the submission: none on any stopped
branch, exactly the one generated file on success. -/
def filesWritten : SubmitOutcome → List String
  | .generated c => [c]
  | _ => []

/-- The submission handler (`main.py` lines 259-356): validate the
mandatory fields and stop with the full error list if any check failed,
then parse the PubMed IDs, then the abbreviations, then build the manifest
and write its YAML serialization. -/
def main_submit (inp : FormInput) : SubmitOutcome :=
  match validate_mandatory_fields (dataOf inp) with
  | e :: rest => .stoppedValidation (e :: rest)
  | [] =>
    match split_csv_ints inp.pmid with
    | .error _ => .stoppedPmid "Error: PubMed IDs must be valid integers separated by commas"
    | .ok pmids =>
      match parse_cell_types inp.cell_types_str with
      | .error _ =>
        .stoppedCellTypes
          "Error: Invalid cell type abbreviations format. Please check the format and try again."
      | .ok ctypes =>
        .generated (save_manifest_output (buildManifest inp pmids ctypes))

/- ## Specification-side descriptions of the abbreviation parser

These definitions follow the wording of the specification and of the claims
(per-line offence classification, first offending line, the mapping built
from well-formed lines); the theorems compare them with `parse_cell_types`
above, which was embedded from the source. -/

/-- The lines `parse_cell_types` iterates over: the input is `strip()`ped
and then split at newlines (`main.py` line 22). -/
def ctLines (s : String) : List (List Char) := splitOnChar '\n' (pyStrip s).data

/-- Per-line offence classification, following the claim's conditions in
check order: a blank line is skipped; otherwise missing separator when the
line has no colon, missing abbreviation when the text before the first
colon trims to empty, missing description when the text after it trims to
empty, invalid characters when the trimmed abbreviation contains a reserved
character. -/
def lineError (l : List Char) : Option ErrKind :=
  if stripBy isPyWs l = [] then none
  else
    match breakAtFirst ':' l with
    | none => some .missingSeparator
    | some (a, d) =>
      if stripBy isPyWs a = [] then some .missingAbbreviation
      else if stripBy isPyWs d = [] then some .missingDescription
      else if (stripBy isPyWs a).any (fun c => reservedChars.contains c) then
        some .invalidCharacters
      else none

/-- The first offending line of a line list, numbered from `n`. -/
def firstErrorFrom (n : Nat) : List (List Char) → Option PErr
  | [] => none
  | l :: rest =>
    match lineError l with
    | some k => some ⟨n, k⟩
    | none => firstErrorFrom (n + 1) rest

/-- The claim as written: the first offending line numbered 1-based over
the lines of the **original** input text. -/
def claimOriginalFirstError (s : String) : Option PErr :=
  firstErrorFrom 1 (splitOnChar '\n' s.data)

/-- A line is acceptable to the parser (blank, or fully well-formed). -/
def lineOk (l : List Char) : Bool := (lineError l).isNone

/-- The pair a well-formed non-blank line contributes: the text before the
first colon and the text after it, both trimmed. -/
def specPair (l : List Char) : Option (String × String) :=
  if stripBy isPyWs l = [] then none
  else
    match breakAtFirst ':' l with
    | none => none
    | some (a, d) => some (⟨stripBy isPyWs a⟩, ⟨stripBy isPyWs d⟩)

/-- Insert a list of pairs in order, later duplicates overwriting. -/
def specInsertAll (acc : List (String × String)) (ps : List (String × String)) :
    List (String × String) :=
  ps.foldl (fun a p => dictInsertS a p.1 p.2) acc

/-- The mapping the claim describes for a well-formed input: split each
non-blank line at its first colon, trim both sides, skip blank lines, keep
insertion order, let a later duplicate overwrite the earlier one. -/
def specMap (s : String) : List (String × String) :=
  specInsertAll [] ((ctLines s).filterMap specPair)

theorem parseLines_error : ∀ (lines : List (List Char)) (n : Nat)
    (acc : List (String × String)) (e : PErr),
    firstErrorFrom n lines = some e → parseLines n lines acc = .error e
  | [], _, _, _, h => by simp [firstErrorFrom] at h
  | l :: rest, n, acc, e, h => by
    rw [firstErrorFrom] at h
    by_cases hblank : stripBy isPyWs l = []
    · simp only [lineError, hblank, if_true, reduceCtorEq] at h
      simp only [parseLines, hblank, if_true, reduceCtorEq]
      exact parseLines_error rest (n + 1) acc e h
    · simp only [lineError, hblank, if_false, reduceCtorEq] at h
      simp only [parseLines, hblank, if_false, reduceCtorEq]
      cases hsplit : breakAtFirst ':' l with
      | none =>
        simp only [hsplit, Option.some_inj] at h
        simp [hsplit, ← h]
      | some p =>
        obtain ⟨a, d⟩ := p
        simp only [hsplit] at h ⊢
        by_cases habbr : stripBy isPyWs a = []
        · simp only [habbr, if_true, Option.some_inj] at h ⊢
          simp [← h]
        · simp only [habbr, if_false] at h ⊢
          by_cases hdesc : stripBy isPyWs d = []
          · simp only [hdesc, if_true, Option.some_inj] at h ⊢
            simp [← h]
          · simp only [hdesc, if_false] at h ⊢
            by_cases hres : (stripBy isPyWs a).any (fun c => reservedChars.contains c) = true
            · simp only [hres, if_true, Option.some_inj] at h ⊢
              simp [← h]
            · simp only [hres, if_false] at h ⊢
              exact parseLines_error rest (n + 1) _ e h

theorem parseLines_ok : ∀ (lines : List (List Char)) (n : Nat)
    (acc : List (String × String)),
    (∀ l ∈ lines, lineOk l = true) →
    parseLines n lines acc = .ok (specInsertAll acc (lines.filterMap specPair))
  | [], _, _, _ => rfl
  | l :: rest, n, acc, h => by
    have hl : lineOk l = true := h l (List.mem_cons_self l rest)
    have hrest : ∀ l' ∈ rest, lineOk l' = true :=
      fun l' hm => h l' (List.mem_cons_of_mem l hm)
    rw [lineOk] at hl
    rw [List.filterMap_cons]
    by_cases hblank : stripBy isPyWs l = []
    · simp only [specPair, hblank, if_true]
      simp only [parseLines, hblank, if_true]
      exact parseLines_ok rest (n + 1) acc hrest
    · simp only [lineError, hblank, if_false] at hl
      simp only [specPair, hblank, if_false]
      simp only [parseLines, hblank, if_false]
      cases hsplit : breakAtFirst ':' l with
      | none =>
        simp only [hsplit, Option.isNone_some] at hl
        exact Bool.noConfusion hl
      | some p =>
        obtain ⟨a, d⟩ := p
        simp only [hsplit] at hl ⊢
        by_cases habbr : stripBy isPyWs a = []
        · simp only [habbr, if_true, Option.isNone_some] at hl
          exact Bool.noConfusion hl
        · simp only [habbr, if_false] at hl ⊢
          by_cases hdesc : stripBy isPyWs d = []
          · simp only [hdesc, if_true, Option.isNone_some] at hl
            exact Bool.noConfusion hl
          · simp only [hdesc, if_false] at hl ⊢
            by_cases hres : (stripBy isPyWs a).any (fun c => reservedChars.contains c) = true
            · simp only [hres, if_true, Option.isNone_some] at hl
              exact Bool.noConfusion hl
            · simp only [hres, if_false] at hl ⊢
              rw [parseLines_ok rest (n + 1) _ hrest]
              rfl

/-- C4 (amended): when the whitespace-stripped input contains an offending
line, `parse_cell_types` fails fast with exactly one error carrying the
1-based number of the first offending line **of the stripped text** and the
matching error kind (missing separator, missing abbreviation, missing
description, invalid characters, checked in that order). -/
theorem C4_first_error_reported (s : String) (e : PErr)
    (h : firstErrorFrom 1 (ctLines s) = some e) :
    parse_cell_types s = .error e := by
  rw [parse_cell_types]
  by_cases hs : pyStrip s = ""
  · rw [ctLines, hs] at h
    rw [show firstErrorFrom 1 (splitOnChar '\n' ("" : String).data) = none from by decide] at h
    exact Option.noConfusion h
  · rw [if_neg hs]
    exact parseLines_error _ 1 [] e h

/-- C4 witness: a well-formed first line followed by a line without a colon
fails with the missing-separator error on line 2. -/
theorem C4_first_error_reported_witness :
    parse_cell_types "ok: fine\nbad line" = .error ⟨2, .missingSeparator⟩ :=
  C4_first_error_reported "ok: fine\nbad line" ⟨2, .missingSeparator⟩ (by decide)

/-- C4 counterexample: the claim as stated is false.  On the input
consisting of a blank line followed by `nocolon`, the first offending line
of the **original** text is line 2, but the parser strips the input before
numbering lines and reports line 1. -/
theorem C4_reported_line_not_original :
    parse_cell_types "\nnocolon" = .error ⟨1, .missingSeparator⟩ ∧
    claimOriginalFirstError "\nnocolon" = some ⟨2, .missingSeparator⟩ :=
  ⟨by decide, by decide⟩

/-- C5: on an input whose non-blank lines are all well-formed,
`parse_cell_types` succeeds and returns the mapping built by splitting each
non-blank line at its first colon only, trimming both sides, skipping blank
lines, keeping insertion order with a later duplicate overwriting the
earlier entry; empty or whitespace-only input yields the empty mapping. -/
theorem C5_wellformed_parse (s : String)
    (h : ∀ l ∈ ctLines s, lineOk l = true) :
    parse_cell_types s = .ok (specMap s) := by
  rw [parse_cell_types, specMap]
  by_cases hs : pyStrip s = ""
  · rw [if_pos hs, ctLines, hs]
    decide
  · rw [if_neg hs]
    exact parseLines_ok _ 1 [] h

/-- C5 witness: an input exercising a colon inside a description, a
duplicate abbreviation and a blank line, plus a whitespace-only input. -/
theorem C5_wellformed_parse_witness :
    parse_cell_types "NSC: Neural Stem Cell\nRG: Radial Glia\nNSC: Updated: x\n\n" =
      .ok [("NSC", "Updated: x"), ("RG", "Radial Glia")] ∧
    parse_cell_types "   " = .ok [] := by
  constructor
  · exact (C5_wellformed_parse "NSC: Neural Stem Cell\nRG: Radial Glia\nNSC: Updated: x\n\n"
      (by decide)).trans (by decide)
  · exact (C5_wellformed_parse "   " (by decide)).trans (by decide)

theorem goTokens_ok : ∀ (ts : List String), (∀ t ∈ ts, (pyParseInt t).isSome) →
    goTokens ts = .ok (ts.filterMap pyParseInt)
  | [], _ => rfl
  | t :: rest, h => by
    have ht := h t (List.mem_cons_self t rest)
    rw [goTokens, List.filterMap_cons]
    cases hp : pyParseInt t with
    | none =>
      rw [hp] at ht
      exact Bool.noConfusion ht
    | some n =>
      simp only [hp]
      rw [goTokens_ok rest (fun t' h' => h t' (List.mem_cons_of_mem t h'))]

theorem goTokens_error : ∀ (ts : List String), (∃ t ∈ ts, pyParseInt t = none) →
    goTokens ts = .error pmidErrorMsg
  | [], h => by simp at h
  | t :: rest, h => by
    rw [goTokens]
    cases hp : pyParseInt t with
    | none => simp only [hp]
    | some n =>
      simp only [hp]
      obtain ⟨t', ht', hnone⟩ := h
      rcases List.mem_cons.mp ht' with h1 | h2
      · subst h1
        rw [hp] at hnone
        exact Option.noConfusion hnone
      · rw [goTokens_error rest ⟨t', h2, hnone⟩]

/-- C6: the PubMed ID parser maps empty or whitespace-only input to the
empty list; on other input it splits at commas, trims each token and parses
every token as an integer preserving order; and if any token is not an
integer the whole operation fails with the format error and produces no
partial list. -/
theorem C6_pubmed_ids :
    (∀ s : String, pyStrip s = "" → split_csv_ints s = .ok []) ∧
    (∀ s : String, pyStrip s ≠ "" → (∀ t ∈ csvTokens s, (pyParseInt t).isSome) →
      split_csv_ints s = .ok ((csvTokens s).filterMap pyParseInt)) ∧
    (∀ s : String, pyStrip s ≠ "" → (∃ t ∈ csvTokens s, pyParseInt t = none) →
      split_csv_ints s = .error pmidErrorMsg) := by
  refine ⟨fun s hs => ?_, fun s hs h => ?_, fun s hs h => ?_⟩
  · rw [split_csv_ints, if_pos hs]
  · rw [split_csv_ints, if_neg hs]
    exact goTokens_ok _ h
  · rw [split_csv_ints, if_neg hs]
    exact goTokens_error _ h

/-- C6 witness: the three behaviours at concrete inputs. -/
theorem C6_pubmed_ids_witness :
    split_csv_ints "" = .ok [] ∧
    split_csv_ints "12345678, 87654321" = .ok [12345678, 87654321] ∧
    split_csv_ints "abc" = .error pmidErrorMsg := by
  refine ⟨C6_pubmed_ids.1 "" (by decide), ?_,
    C6_pubmed_ids.2.2 "abc" (by decide) ⟨"abc", by decide, by decide⟩⟩
  exact (C6_pubmed_ids.2.1 "12345678, 87654321" (by decide) (by decide)).trans (by decide)

/-- The specification's ordered mandatory-field checks: each is a presence
predicate paired with its human-readable message, in the order project id,
study name, study title, study abstract. -/
def mandatoryChecks : List ((CandidateData → Bool) × String) :=
  [(fun d => pyTruthy d.project_id, "Project ID is required"),
   (fun d => pyTruthy (studyOf d).name, "Study name is required"),
   (fun d => pyTruthy (studyOf d).title, "Study title is required"),
   (fun d => pyTruthy (studyOf d).abstract, "Study abstract is required")]

/-- The messages of exactly the failing checks, in check order. -/
def specErrors (d : CandidateData) : List String :=
  (mandatoryChecks.filter (fun c => !(c.1 d))).map (fun c => c.2)

/-- C7: for every candidate the validator returns the ordered list of
messages of exactly the failing mandatory-field checks, accumulating all
failures in the order project id, study name, study title, study abstract
(it is a total function, so it never throws); and a record missing both the
project id and the study title yields exactly those two messages. -/
theorem C7_validator_accumulates :
    (∀ d : CandidateData, validate_mandatory_fields d = specErrors d) ∧
    validate_mandatory_fields ⟨some "", some ⟨some "N", some "", some "A"⟩⟩ =
      ["Project ID is required", "Study title is required"] := by
  constructor
  · intro d
    cases h1 : pyTruthy d.project_id <;>
      cases h2 : pyTruthy (studyOf d).name <;>
        cases h3 : pyTruthy (studyOf d).title <;>
          cases h4 : pyTruthy (studyOf d).abstract <;>
            simp [validate_mandatory_fields, specErrors, mandatoryChecks, h1, h2, h3, h4]
  · decide

/- ## Serializer claims -/

/-- A validated manifest record with plain alphabetic free-text fields. -/
def exManifest : ManifestData :=
  { project_id := "THBsc"
    study :=
      { name := "Test", title := "Test", abstract := "Abs", pmid := []
        app_link := "", year := "", note := "", cell_type_abbreviations := .nil }
    geo :=
      { platforms := "platA", organisms := ["Homo sapiens"], geoid := "GSE"
        geo_summary := "", urls := [], processed_date := "" }
    loc := { andata_on_azure := "", pp_notebooks := "" }
    results :=
      { no_of_samples := "100", no_of_cells_after_pp := "10000"
        no_of_genes_after_pp := "2000", no_of_clusters := "10"
        cluster_cell_numbers := [] }
    processing := { description := "" } }

/-- `exManifest` with a double quote inside the study title; the record is
still validated (project id, name, title, abstract all non-empty). -/
def quotedManifest : ManifestData :=
  { exManifest with study := { exManifest.study with title := "a\"b" } }

/-- A string contains no double-quote character. -/
def noDQ (s : String) : Bool := !(s.data.contains dqc)

/-- None of the five designated free-text fields contains a double quote. -/
def designatedClean (m : ManifestData) : Bool :=
  noDQ m.study.title && noDQ m.study.abstract && noDQ m.study.app_link &&
    noDQ m.geo.geo_summary && noDQ m.processing.description

theorem replaceQuoteL_id : ∀ (l : List Char), dqc ∉ l → replaceQuoteL l = l
  | [], _ => rfl
  | c :: rest, h => by
    rw [replaceQuoteL, if_neg (fun (hc : c = dqc) => h (hc ▸ List.mem_cons_self c rest)),
      replaceQuoteL_id rest (fun hm => h (List.mem_cons_of_mem c hm))]

theorem format_string_id (s : String) (h : noDQ s = true) :
    format_string_for_yaml s = s := by
  rw [format_string_for_yaml]
  by_cases he : s = ""
  · rw [if_pos he, he]
  · rw [if_neg he]
    split
    · rw [replaceQuoteL_id s.data (by simpa [noDQ] using h)]
    · rfl

/-- A record whose designated fields are quote-free and whose abbreviation
dictionary is already clean is a fixed point of `format_manifest_data`. -/
theorem format_manifest_fixed (m : ManifestData) (h : designatedClean m = true)
    (h2 : clean_dict_strings m.study.cell_type_abbreviations =
      m.study.cell_type_abbreviations) :
    format_manifest_data m = m := by
  simp only [designatedClean, Bool.and_eq_true] at h
  obtain ⟨⟨⟨⟨ht, ha⟩, hl⟩, hg⟩, hp⟩ := h
  rw [format_manifest_data, format_string_id _ ht, format_string_id _ ha,
    format_string_id _ hl, format_string_id _ hg, format_string_id _ hp, h2]

/-- C2 counterexample: serializing `quotedManifest` and parsing the YAML
back does not return the original values — the study title comes back with
a spurious backslash inserted before the double quote. -/
theorem C2_roundtrip_fails :
    round_trip_values quotedManifest ≠ quotedManifest ∧
    (round_trip_values quotedManifest).study.title = "a\\\"b" ∧
    quotedManifest.study.title = "a\"b" := by
  refine ⟨?_, by decide, by decide⟩
  decide

/-- C2 (amended): the round trip returns the original record's values
provided no designated free-text field contains a double-quote character
and the abbreviation mapping is a fixed point of `clean_dict_strings`. -/
theorem C2_roundtrip_clean (m : ManifestData) (h : designatedClean m = true)
    (h2 : clean_dict_strings m.study.cell_type_abbreviations =
      m.study.cell_type_abbreviations) :
    round_trip_values m = m :=
  format_manifest_fixed m h h2

/-- C2 witness: the round trip is the identity on `exManifest`. -/
theorem C2_roundtrip_clean_witness : round_trip_values exManifest = exManifest :=
  C2_roundtrip_clean exManifest (by decide) (by decide)

/-- C3: the claim is false on the code.  `format_manifest_data` copies the
top-level dictionary only (shallow `data.copy()`), so the first
serialization rewrites the caller's nested dictionaries in place; a second
serialization of the same record object formats the already-formatted
title `a\"b` into `a\\"b` and produces different bytes. -/
theorem C3_second_serialization_differs :
    second_serialization quotedManifest ≠ save_manifest_output quotedManifest ∧
    (format_manifest_data quotedManifest).study.title = "a\\\"b" ∧
    (format_manifest_data (format_manifest_data quotedManifest)).study.title =
      "a\\\\\"b" := by
  refine ⟨?_, by decide, by decide⟩
  decide

/-- C8: the serialized document lists the top-level keys in the declaration
order `project_id, study, geo, loc, results, processing` of `models.py`
(the dump is called with `sort_keys=False` on the `model_dump` dictionary),
and the emitted text begins with the explicit start marker line and ends
with the explicit end marker line. -/
theorem C8_key_order_and_markers (m : ManifestData) :
    pdictKeys (modelDump (format_manifest_data m)) =
      ["project_id", "study", "geo", "loc", "results", "processing"] ∧
    "---\n".data <+: save_manifest_chars m ∧
    "...\n".data <:+ save_manifest_chars m := by
  refine ⟨rfl, ?_, ?_⟩
  · simp only [save_manifest_chars, yamlDumpL]
    exact List.prefix_append _ _
  · simp only [save_manifest_chars, yamlDumpL]
    exact (List.suffix_append _ _).trans (List.suffix_append _ _)

set_option maxRecDepth 10000 in
/-- C1: the claim is false on the code.  The `QuotedString` machinery is
registered but never applied, so the designated fields reach `yaml.dump` as
plain `str` values and are quoted only when their content requires it: the
title `Test` of `exManifest` is emitted as the bare plain scalar
`title: Test`, not as a quoted scalar. -/
theorem C1_designated_field_emitted_unquoted :
    (splitOnChar '\n' (save_manifest_chars exManifest)).contains "  title: Test".data = true ∧
    scalarOfStr ((format_manifest_data exManifest).study.title) =
      ((format_manifest_data exManifest).study.title).data := by
  constructor
  · decide
  · decide

/-- C9: when mandatory-field validation fails, the submission stops with
the full list of error messages and no manifest file is created — the
handler reaches `st.stop()` on line 278 of `main.py` before
`save_manifest_to_yaml` is ever called. -/
theorem C9_validation_aborts (inp : FormInput) (errs : List String)
    (hval : validate_mandatory_fields (dataOf inp) = errs) (hne : errs ≠ []) :
    main_submit inp = .stoppedValidation errs ∧
      filesWritten (main_submit inp) = [] := by
  cases herr : validate_mandatory_fields (dataOf inp) with
  | nil => exact absurd (hval.symm.trans herr) hne
  | cons e rest =>
    have hes : errs = e :: rest := hval.symm.trans herr
    have hm : main_submit inp = .stoppedValidation (e :: rest) := by
      rw [main_submit, herr]
    rw [hm, hes]
    exact ⟨rfl, rfl⟩

/-- An entirely empty form submission. -/
def emptyForm : FormInput :=
  { project_id := "", study_name := "", study_title := "", study_abstract := ""
    pmid := "", app_link := "", year := "", note := ""
    no_of_samples := "", no_of_cells := "", no_of_clusters := "", no_of_genes := ""
    cluster_cell_numbers := "", platforms := "", organisms := "", geoid := ""
    geo_summary := "", urls := "", processed_date := "", azure_location := ""
    pp_notebooks := "", processing_description := "", cell_types_str := "" }

/-- C9 witness: the empty submission stops with all four mandatory-field
messages and writes nothing. -/
theorem C9_validation_aborts_witness :
    main_submit emptyForm =
      .stoppedValidation
        ["Project ID is required", "Study name is required",
         "Study title is required", "Study abstract is required"] ∧
      filesWritten (main_submit emptyForm) = [] :=
  C9_validation_aborts emptyForm
    ["Project ID is required", "Study name is required",
     "Study title is required", "Study abstract is required"]
    (by decide) (by decide)

/- ## C10: the cleaning pass over the abbreviation mapping -/

/-- Concatenation of ordered dictionaries. -/
def centAppend : CEntries → CEntries → CEntries
  | .nil, e => e
  | .cons k v rest, e => .cons k v (centAppend rest e)

/-- The keys of an ordered dictionary. -/
def centKeys : CEntries → List String
  | .nil => []
  | .cons k _ rest => k :: centKeys rest

/-- The cleaned keys of the entries, in order. -/
def cleanedKeys : CEntries → List String
  | .nil => []
  | .cons k _ rest => cleanKey k :: cleanedKeys rest

/-- The claim's description of the cleaning pass: every entry is rewritten
in place, the key cleaned with `cleanKey` and the value with `cleanVal`. -/
def mapCleanSpec : CEntries → CEntries
  | .nil => .nil
  | .cons k v rest => .cons (cleanKey k) (cleanVal v) (mapCleanSpec rest)

theorem centAppend_nil : ∀ (a : CEntries), centAppend a .nil = a
  | .nil => rfl
  | .cons k v rest => by rw [centAppend, centAppend_nil rest]

theorem centAppend_assoc : ∀ (a b c : CEntries),
    centAppend (centAppend a b) c = centAppend a (centAppend b c)
  | .nil, _, _ => rfl
  | .cons k v rest, b, c => by
    rw [centAppend, centAppend, centAppend, centAppend_assoc rest b c]

theorem centKeys_append : ∀ (a b : CEntries),
    centKeys (centAppend a b) = centKeys a ++ centKeys b
  | .nil, _ => rfl
  | .cons k v rest, b => by
    rw [centAppend, centKeys, centKeys, centKeys_append rest b, List.cons_append]

theorem centInsert_notMem : ∀ (acc : CEntries) (k : String) (v : CVal),
    k ∉ centKeys acc → centInsert acc k v = centAppend acc (.cons k v .nil)
  | .nil, _, _, _ => rfl
  | .cons k' v' rest, k, v, h => by
    rw [centInsert,
      if_neg (fun (hc : k' = k) => h (by rw [← hc]; exact List.mem_cons_self k' _)),
      centInsert_notMem rest k v (fun hm => h (List.mem_cons_of_mem k' hm)), centAppend]

theorem cleanEntries_eq : ∀ (d : CEntries) (acc : CEntries),
    (cleanedKeys d).Nodup →
    (∀ k ∈ cleanedKeys d, k ∉ centKeys acc) →
    cleanEntries acc d = centAppend acc (mapCleanSpec d)
  | .nil, acc, _, _ => by rw [cleanEntries, mapCleanSpec, centAppend_nil]
  | .cons k v rest, acc, hnd, hdisj => by
    rw [cleanedKeys, List.nodup_cons] at hnd
    have hknot : cleanKey k ∉ centKeys acc :=
      hdisj (cleanKey k) (by rw [cleanedKeys]; exact List.mem_cons_self _ _)
    have hdisj' : ∀ k' ∈ cleanedKeys rest,
        k' ∉ centKeys (centInsert acc (cleanKey k) (cleanVal v)) := by
      intro k' hk'
      rw [centInsert_notMem acc _ _ hknot, centKeys_append]
      intro hmem
      rcases List.mem_append.mp hmem with hacc | hone
      · exact hdisj k' (by rw [cleanedKeys]; exact List.mem_cons_of_mem _ hk') hacc
      · rw [centKeys, centKeys] at hone
        rcases List.mem_cons.mp hone with he | hf
        · exact hnd.1 (he ▸ hk')
        · exact List.not_mem_nil k' hf
    rw [cleanEntries, cleanEntries_eq rest _ hnd.2 hdisj',
      centInsert_notMem acc _ _ hknot, centAppend_assoc, mapCleanSpec, centAppend]
    rfl

/-- A raw abbreviation mapping whose single entry carries a trailing space
in the key and a trailing comma in the value. -/
def exDirtyAbbrevs : CEntries := .cons "NSC " (.cstr "Neural,") .nil

/-- C10: before emission the serializer rewrites the abbreviation mapping
with `clean_dict_strings`; when the cleaned keys do not collide, the result
rewrites every entry in place — each key stripped of whitespace and then of
surrounding quotes, each string value additionally stripped of trailing
commas, nested dictionary values cleaned recursively — so the emitted
mapping can differ from the one stored in the record. -/
theorem C10_clean_abbreviations :
    (∀ m : ManifestData,
      (format_manifest_data m).study.cell_type_abbreviations =
        clean_dict_strings m.study.cell_type_abbreviations) ∧
    (∀ d : CEntries, (cleanedKeys d).Nodup → clean_dict_strings d = mapCleanSpec d) ∧
    (∀ s : String, cleanVal (.cstr s) = .cstr (cleanStrVal s)) ∧
    (∀ d : CEntries, cleanVal (.cdict d) = .cdict (clean_dict_strings d)) ∧
    clean_dict_strings exDirtyAbbrevs ≠ exDirtyAbbrevs := by
  refine ⟨fun m => rfl, fun d hnd => ?_, fun s => rfl, fun d => rfl, by decide⟩
  rw [clean_dict_strings, cleanEntries_eq d .nil hnd (fun k _ => List.not_mem_nil k)]
  rfl

/-- C10 witness: the dirty example mapping has collision-free cleaned keys
and is rewritten entry-wise to the cleaned entry. -/
theorem C10_clean_abbreviations_witness :
    (cleanedKeys exDirtyAbbrevs).Nodup ∧
    clean_dict_strings exDirtyAbbrevs = mapCleanSpec exDirtyAbbrevs :=
  ⟨by decide, C10_clean_abbreviations.2.1 exDirtyAbbrevs (by decide)⟩

end SCM
